import Mathlib

/-!
Verification development for the broadcast delivery engine in `src/Main.py`
(class `TelegramUserbot`). The provider (Telethon client) is modelled as an
environment: dialog enumeration is a list of dialog records together with an
optional raised exception, and `client.send_message` is an oracle mapping the
index of each successive send call to the provider's response. All functions
of the engine are embedded as pure Lean functions over those environments;
time suspensions (`asyncio.sleep`) are recorded in explicit sleep traces.
-/

/-- A Telethon `Channel` entity as used by `get_all_groups` (Main.py lines
49-58): it carries an id, a `megagroup` flag and a `broadcast` flag. -/
structure ChannelEnt where
  id : Int
  megagroup : Bool
  broadcast : Bool
deriving DecidableEq, Repr

/-- A Telethon `Chat` entity (plain multi-user chat), Main.py lines 59-65. -/
structure ChatEnt where
  id : Int
deriving DecidableEq, Repr

/-- The entity behind a dialog. `other` stands for any entity that is neither
a `Channel` nor a `Chat` (e.g. a `User`), which the `isinstance` check on
Main.py line 49 rejects. -/
inductive Entity where
  | channel (c : ChannelEnt)
  | chat (c : ChatEnt)
  | other (id : Int)
deriving DecidableEq, Repr

/-- One dialog record yielded by `client.iter_dialogs()` (Main.py line 47):
an entity plus the dialog title. -/
structure Dialog where
  entity : Entity
  title : String
deriving DecidableEq, Repr

/-- One entry of the list built by `get_all_groups` (the dict with keys
`entity`, `title`, `id`, `type`, Main.py lines 53-65). -/
structure GroupInfo where
  entity : Entity
  title : String
  id : Int
  type : String
deriving DecidableEq, Repr

/-- The per-dialog body of the loop in `get_all_groups` (Main.py lines
49-65): a `Channel` is kept when `megagroup or not broadcast` holds, typed
`supergroup` when `megagroup` else `channel`; a `Chat` is kept with type
`group`; any other entity is dropped. -/
def classifyDialog (d : Dialog) : Option GroupInfo :=
  match d.entity with
  | .channel c =>
      if c.megagroup || !c.broadcast then
        some { entity := d.entity, title := d.title, id := c.id,
               type := if c.megagroup then "supergroup" else "channel" }
      else
        none
  | .chat c =>
      some { entity := d.entity, title := d.title, id := c.id, type := "group" }
  | .other _ => none

/-- `get_all_groups` (Main.py lines 36-72). The enumeration environment is
the list of dialogs the provider yields plus `enumError`, which is `some e`
when the provider raises exception `e` at any point of the iteration; the
`try`/`except` on lines 45-72 then discards the accumulated list and returns
`[]`, so the returned value does not depend on where the exception fired. -/
def get_all_groups (dialogs : List Dialog) (enumError : Option String) :
    List GroupInfo :=
  match enumError with
  | some _ => []
  | none => dialogs.filterMap classifyDialog

/-- A response of the provider to one `client.send_message` call: success, a
`FloodWaitError` carrying its `seconds`, a `ChatWriteForbiddenError`, a
`UserBannedInChannelError`, or any other exception. -/
inductive SendResp where
  | ok
  | floodWait (seconds : Nat)
  | writeForbidden
  | banned
  | otherError (msg : String)
deriving DecidableEq, Repr

/-- The outcome recorded for one group by one pass of the dispatch loop,
labelling the branch of Main.py lines 96-132 that handled it: `sent` for a
successful send (first try or after the flood-wait retry), `skippedExcluded`
for the `continue` on line 101, `failedRateLimited` for a failed retry after
a flood wait (lines 118-120), `failedPermission` for line 122,
`failedBanned` for line 126, `failedOther` for line 130. -/
inductive Outcome where
  | sent
  | skippedExcluded
  | failedRateLimited
  | failedPermission
  | failedBanned
  | failedOther
deriving DecidableEq, Repr

/-- Whether an outcome increments the `failed_sends` counter of Main.py. -/
def Outcome.isFailure : Outcome → Bool
  | .failedRateLimited => true
  | .failedPermission => true
  | .failedBanned => true
  | .failedOther => true
  | _ => false

/-- The body of the `for group in groups` loop of `send_to_all_groups_once`
(Main.py lines 96-132) for one group. `σ` is the send oracle and `k` the
index of the next send call; returns the outcome, the next call index, and
the list of sleeps performed (`asyncio.sleep(e.seconds + 1)` on line 111).
On a flood wait the same group is retried exactly once (lines 113-120); a
retry failure of any kind is the generic `except` on line 118. -/
def processGroup (σ : Nat → SendResp) (exclude_ids : List Int)
    (g : GroupInfo) (k : Nat) : Outcome × Nat × List Nat :=
  if g.id ∈ exclude_ids then
    (.skippedExcluded, k, [])
  else
    match σ k with
    | .ok => (.sent, k + 1, [])
    | .floodWait w =>
        match σ (k + 1) with
        | .ok => (.sent, k + 2, [w + 1])
        | _ => (.failedRateLimited, k + 2, [w + 1])
    | .writeForbidden => (.failedPermission, k + 1, [])
    | .banned => (.failedBanned, k + 1, [])
    | .otherError _ => (.failedOther, k + 1, [])

/-- Result of one dispatch pass (`send_to_all_groups_once`): the recorded
outcome for every group in catalog order, the final values of the
`successful_sends` and `failed_sends` counters (Main.py lines 91-92, returned
on line 134), the trace of sleeps performed during the pass, and the send
oracle index after the pass. -/
structure DispatchResult where
  outcomes : List (GroupInfo × Outcome)
  success : Nat
  failed : Nat
  sleeps : List Nat
  kAfter : Nat
deriving DecidableEq, Repr

/-- The `for group in groups` loop of Main.py lines 96-132, processing the
groups strictly sequentially and accumulating the two counters: `.sent`
increments `success`, any failure outcome increments `failed`, an excluded
group increments neither. -/
def dispatchLoop (σ : Nat → SendResp) (exclude_ids : List Int) :
    List GroupInfo → Nat → DispatchResult
  | [], k => ⟨[], 0, 0, [], k⟩
  | g :: gs, k =>
      let p := processGroup σ exclude_ids g k
      let rest := dispatchLoop σ exclude_ids gs p.2.1
      ⟨(g, p.1) :: rest.outcomes,
       (if p.1 = .sent then 1 else 0) + rest.success,
       (if p.1.isFailure then 1 else 0) + rest.failed,
       p.2.2 ++ rest.sleeps,
       rest.kAfter⟩

/-- `send_to_all_groups_once` (Main.py lines 74-134): resolves the catalog
via `get_all_groups`, then runs the dispatch loop over it. The early return
`0, 0` for an empty catalog (lines 87-89) coincides with the loop over the
empty list. The message text is threaded to every send call unchanged and
its effect on the provider is absorbed into the oracle `σ`. -/
def send_to_all_groups_once (σ : Nat → SendResp) (k : Nat)
    (dialogs : List Dialog) (enumError : Option String)
    (message : String) (exclude_ids : List Int) : DispatchResult :=
  dispatchLoop σ exclude_ids (get_all_groups dialogs enumError) k

/-- The summary data logged by `broadcast_with_delay` at Main.py lines
165-168: total messages sent, total failed, and the rounds count. This is
the spec's `BroadcastSummary` record; it is used to state what the function
logs and what (if anything) it returns. -/
structure BroadcastSummary where
  totalSuccess : Nat
  totalFailed : Nat
  roundsCompleted : Nat
deriving DecidableEq, Repr

/-- Accumulated state of the `for round_num in range(1, rounds + 1)` loop of
`broadcast_with_delay` (Main.py lines 151-163): the two running totals, the
per-round `(success, failed)` pairs as logged on line 158, the number of
times the resolve/filter/dispatch pipeline (`send_to_all_groups_once`) was
invoked, the trace of inter-round sleeps (line 163), the trace of sleeps
performed inside dispatch passes, and the final send oracle index. -/
structure RoundsAccum where
  totalSuccess : Nat
  totalFailed : Nat
  roundLog : List (Nat × Nat)
  pipelineRuns : Nat
  interSleeps : List Nat
  dispatchSleeps : List Nat
  kAfter : Nat
deriving DecidableEq, Repr

/-- The round loop of Main.py lines 151-163, recursing on the number of
remaining rounds. `env` gives, per round number, the dialog list and
optional enumeration exception for that round's fresh catalog resolution;
`σ` is the send oracle shared across rounds via the call index. The sleep on
line 163 happens only when `round_num < rounds`, i.e. when further rounds
remain. -/
def broadcastLoop (env : Nat → List Dialog × Option String)
    (σ : Nat → SendResp) (message : String) (delay_between_rounds : Nat)
    (exclude_ids : List Int) : Nat → Nat → Nat → RoundsAccum
  | 0, _, k => ⟨0, 0, [], 0, [], [], k⟩
  | remaining + 1, round_num, k =>
      let d := env round_num
      let r := send_to_all_groups_once σ k d.1 d.2 message exclude_ids
      let rest := broadcastLoop env σ message delay_between_rounds exclude_ids
        remaining (round_num + 1) r.kAfter
      ⟨r.success + rest.totalSuccess,
       r.failed + rest.totalFailed,
       (r.success, r.failed) :: rest.roundLog,
       1 + rest.pipelineRuns,
       (if remaining = 0 then [] else [delay_between_rounds]) ++ rest.interSleeps,
       r.sleeps ++ rest.dispatchSleeps,
       rest.kAfter⟩

/-- Observable result of one `broadcast_with_delay` call: the loop
accumulators, the summary logged on lines 165-168, and the Python return
value. `broadcast_with_delay` (Main.py lines 136-168) contains no `return`
statement, so the call evaluates to `None`: the `returnValue` field is
therefore `none` — the computed summary is only logged, never returned. -/
structure BroadcastResult where
  totalSuccess : Nat
  totalFailed : Nat
  roundLog : List (Nat × Nat)
  pipelineRuns : Nat
  interSleeps : List Nat
  dispatchSleeps : List Nat
  kAfter : Nat
  loggedSummary : BroadcastSummary
  returnValue : Option BroadcastSummary
deriving DecidableEq, Repr

/-- `broadcast_with_delay` (Main.py lines 136-168): runs the round loop
starting at `round_num = 1` with send oracle index 0, logs the final summary
(lines 165-168, with the `rounds` argument as the logged rounds count), and
returns `None` (no `return` statement in the source). -/
def broadcast_with_delay (env : Nat → List Dialog × Option String)
    (σ : Nat → SendResp) (message : String) (rounds : Nat)
    (delay_between_rounds : Nat) (exclude_ids : List Int) : BroadcastResult :=
  let a := broadcastLoop env σ message delay_between_rounds exclude_ids rounds 1 0
  ⟨a.totalSuccess, a.totalFailed, a.roundLog, a.pipelineRuns, a.interSleeps,
   a.dispatchSleeps, a.kAfter,
   ⟨a.totalSuccess, a.totalFailed, rounds⟩,
   none⟩

/-- The groups a dispatch pass actually attempted to send to, in order:
those whose recorded outcome is not `skippedExcluded`. -/
def acceptedOf (r : DispatchResult) : List GroupInfo :=
  (r.outcomes.filter (fun p => !(p.2 == Outcome.skippedExcluded))).map Prod.fst

/-- The groups a dispatch pass skipped as excluded, in order: those whose
recorded outcome is `skippedExcluded` (the `continue` on Main.py line 101). -/
def skippedOf (r : DispatchResult) : List GroupInfo :=
  (r.outcomes.filter (fun p => p.2 == Outcome.skippedExcluded)).map Prod.fst

/-- Sample enumeration environment: one plain group in every round, no
enumeration error. -/
def envG1 : Nat → List Dialog × Option String :=
  fun _ => ([⟨.chat ⟨1⟩, "G1"⟩], none)

/-- Sample send oracle: every send succeeds. -/
def oracleOk : Nat → SendResp := fun _ => .ok

/-- Sample send oracle: the first send hits a flood wait of 5 seconds, all
later sends succeed. -/
def oracleFlood : Nat → SendResp :=
  fun n => if n = 0 then .floodWait 5 else .ok

/-- Sample send oracle: the first send hits a write-permission error, all
later sends succeed. -/
def oracleForbidden : Nat → SendResp :=
  fun n => if n = 0 then .writeForbidden else .ok

/-- Sample group used to instantiate dispatch theorems. -/
def gA : GroupInfo := ⟨.chat ⟨1⟩, "A", 1, "group"⟩

/-- Scenario dialogs: a plain chat, a megagroup channel, and a broadcast-only
channel. -/
def dG1 : Dialog := ⟨.chat ⟨1⟩, "G1"⟩

/-- Scenario dialog G2: a channel flagged megagroup. -/
def dG2 : Dialog := ⟨.channel ⟨2, true, false⟩, "G2"⟩

/-- Scenario dialog C1: a broadcast-only channel (broadcast, not megagroup). -/
def dC1 : Dialog := ⟨.channel ⟨3, false, true⟩, "C1"⟩

/-- The loop body records `skippedExcluded` for a group exactly when its id
is in the exclusion list (the check on Main.py line 99). -/
theorem processGroup_fst_skipped_iff (σ : Nat → SendResp) (E : List Int)
    (g : GroupInfo) (k : Nat) :
    (processGroup σ E g k).1 = Outcome.skippedExcluded ↔ g.id ∈ E := by
  by_cases hm : g.id ∈ E
  · simp [processGroup, hm]
  · rw [processGroup, if_neg hm]
    cases hσ : σ k <;> cases hσ2 : σ (k + 1) <;> simp [hm]

/-- Every outcome recorded by the loop body is exactly one of: a sent, a
failure, or an exclusion skip. -/
theorem outcome_count_one (o : Outcome) :
    (if o = Outcome.sent then 1 else 0) + (if o.isFailure then 1 else 0) +
      (if o = Outcome.skippedExcluded then 1 else 0) = 1 := by
  cases o <;> rfl

/-- The dispatch loop records outcomes for exactly the catalog snapshot, in
catalog order. -/
theorem dispatchLoop_map_fst (σ : Nat → SendResp) (E : List Int)
    (gs : List GroupInfo) : ∀ k : Nat,
    (dispatchLoop σ E gs k).outcomes.map Prod.fst = gs := by
  induction gs with
  | nil => intro k; rfl
  | cons g gs ih => intro k; simp [dispatchLoop, ih]

/-- The `successful_sends` counter equals the number of `sent` outcomes. -/
theorem dispatchLoop_success_count (σ : Nat → SendResp) (E : List Int)
    (gs : List GroupInfo) : ∀ k : Nat,
    (dispatchLoop σ E gs k).success =
      (dispatchLoop σ E gs k).outcomes.countP (fun p => p.2 == Outcome.sent) := by
  induction gs with
  | nil => intro k; rfl
  | cons g gs ih =>
      intro k
      simp only [dispatchLoop, List.countP_cons, ih, beq_iff_eq]
      omega

/-- The `failed_sends` counter equals the number of failure outcomes. -/
theorem dispatchLoop_failed_count (σ : Nat → SendResp) (E : List Int)
    (gs : List GroupInfo) : ∀ k : Nat,
    (dispatchLoop σ E gs k).failed =
      (dispatchLoop σ E gs k).outcomes.countP (fun p => p.2.isFailure) := by
  induction gs with
  | nil => intro k; rfl
  | cons g gs ih =>
      intro k
      simp only [dispatchLoop, List.countP_cons, ih]
      omega

/-- Sent plus failed plus skipped outcomes exhaust the catalog snapshot. -/
theorem dispatchLoop_partition_sum (σ : Nat → SendResp) (E : List Int)
    (gs : List GroupInfo) : ∀ k : Nat,
    (dispatchLoop σ E gs k).success + (dispatchLoop σ E gs k).failed +
      (dispatchLoop σ E gs k).outcomes.countP
        (fun p => p.2 == Outcome.skippedExcluded) = gs.length := by
  induction gs with
  | nil => intro k; rfl
  | cons g gs ih =>
      intro k
      have h1 := outcome_count_one (processGroup σ E g k).1
      have h2 := ih (processGroup σ E g k).2.1
      simp only [dispatchLoop, List.countP_cons, List.length_cons, beq_iff_eq]
      omega

/-- The groups skipped by a dispatch pass are exactly the catalog entries
whose id is in the exclusion list, in catalog order. -/
theorem skippedOf_dispatchLoop (σ : Nat → SendResp) (E : List Int)
    (gs : List GroupInfo) : ∀ k : Nat,
    skippedOf (dispatchLoop σ E gs k) =
      gs.filter (fun g => decide (g.id ∈ E)) := by
  induction gs with
  | nil => intro k; rfl
  | cons g gs ih =>
      intro k
      by_cases hm : g.id ∈ E
      · have hp : (processGroup σ E g k).1 = Outcome.skippedExcluded :=
          (processGroup_fst_skipped_iff σ E g k).mpr hm
        simp [dispatchLoop, skippedOf, List.filter_cons, hm, hp, ih,
          skippedOf] at ih ⊢
        simpa [skippedOf] using ih (processGroup σ E g k).2.1
      · have hp : ¬ (processGroup σ E g k).1 = Outcome.skippedExcluded :=
          fun h => hm ((processGroup_fst_skipped_iff σ E g k).mp h)
        simp [dispatchLoop, skippedOf, List.filter_cons, hm, hp] at ih ⊢
        simpa [skippedOf] using ih (processGroup σ E g k).2.1

/-- The groups a dispatch pass attempts are exactly the catalog entries
whose id is not in the exclusion list, in catalog order. -/
theorem acceptedOf_dispatchLoop (σ : Nat → SendResp) (E : List Int)
    (gs : List GroupInfo) : ∀ k : Nat,
    acceptedOf (dispatchLoop σ E gs k) =
      gs.filter (fun g => !decide (g.id ∈ E)) := by
  induction gs with
  | nil => intro k; rfl
  | cons g gs ih =>
      intro k
      by_cases hm : g.id ∈ E
      · have hp : (processGroup σ E g k).1 = Outcome.skippedExcluded :=
          (processGroup_fst_skipped_iff σ E g k).mpr hm
        simp [dispatchLoop, acceptedOf, List.filter_cons, hm, hp] at ih ⊢
        simpa [acceptedOf] using ih (processGroup σ E g k).2.1
      · have hp : ¬ (processGroup σ E g k).1 = Outcome.skippedExcluded :=
          fun h => hm ((processGroup_fst_skipped_iff σ E g k).mp h)
        simp [dispatchLoop, acceptedOf, List.filter_cons, hm, hp] at ih ⊢
        simpa [acceptedOf] using ih (processGroup σ E g k).2.1

/-- The round loop runs the resolve/filter/dispatch pipeline once per
remaining round. -/
theorem broadcastLoop_pipelineRuns (env : Nat → List Dialog × Option String)
    (σ : Nat → SendResp) (message : String) (delay : Nat) (E : List Int) :
    ∀ (remaining round_num k : Nat),
    (broadcastLoop env σ message delay E remaining round_num k).pipelineRuns =
      remaining := by
  intro remaining
  induction remaining with
  | zero => intro rn k; rfl
  | succ m ih => intro rn k; simp [broadcastLoop, ih]; omega

/-- The round loop sleeps the inter-round delay once per round except after
the last: with `n` rounds remaining it performs `n - 1` inter-round sleeps,
each of the configured delay. -/
theorem broadcastLoop_interSleeps (env : Nat → List Dialog × Option String)
    (σ : Nat → SendResp) (message : String) (delay : Nat) (E : List Int) :
    ∀ (remaining round_num k : Nat),
    (broadcastLoop env σ message delay E remaining round_num k).interSleeps =
      List.replicate (remaining - 1) delay := by
  intro remaining
  induction remaining with
  | zero => intro rn k; rfl
  | succ m ih =>
      intro rn k
      simp only [broadcastLoop, ih, Nat.succ_sub_one]
      cases m with
      | zero => simp
      | succ m2 => simp [List.replicate_succ]

/-- The running success total of the round loop is the sum of the per-round
success counts it logs. -/
theorem broadcastLoop_success_sum (env : Nat → List Dialog × Option String)
    (σ : Nat → SendResp) (message : String) (delay : Nat) (E : List Int) :
    ∀ (remaining round_num k : Nat),
    (broadcastLoop env σ message delay E remaining round_num k).totalSuccess =
      ((broadcastLoop env σ message delay E remaining round_num k).roundLog.map
        Prod.fst).sum := by
  intro remaining
  induction remaining with
  | zero => intro rn k; rfl
  | succ m ih => intro rn k; simp [broadcastLoop, ih]

/-- The running failure total of the round loop is the sum of the per-round
failure counts it logs. -/
theorem broadcastLoop_failed_sum (env : Nat → List Dialog × Option String)
    (σ : Nat → SendResp) (message : String) (delay : Nat) (E : List Int) :
    ∀ (remaining round_num k : Nat),
    (broadcastLoop env σ message delay E remaining round_num k).totalFailed =
      ((broadcastLoop env σ message delay E remaining round_num k).roundLog.map
        Prod.snd).sum := by
  intro remaining
  induction remaining with
  | zero => intro rn k; rfl
  | succ m ih => intro rn k; simp [broadcastLoop, ih]

/-- C1 (counterexample): on a concrete run — one plain group, every send
succeeding, two rounds — `broadcast_with_delay` performs real work (two
successful sends are accumulated) yet its return value is `None`: contrary
to the claim, the accumulated summary is not returned to the caller. -/
theorem C1_counterexample :
    (broadcast_with_delay envG1 oracleOk "hello" 2 10 []).totalSuccess = 2 ∧
    (broadcast_with_delay envG1 oracleOk "hello" 2 10 []).returnValue = none := by
  constructor <;> rfl

/-- C1 (amended): `broadcast_with_delay` accumulates `totalSuccess` and
`totalFailed` across all rounds (they are the sums of the per-round results)
and logs a final summary carrying those totals and the rounds count, but it
returns nothing (`None`) to its caller — the source has no `return`
statement. -/
theorem C1_summary_logged_not_returned (env : Nat → List Dialog × Option String)
    (σ : Nat → SendResp) (message : String) (rounds delay : Nat)
    (E : List Int) :
    (broadcast_with_delay env σ message rounds delay E).totalSuccess =
      (((broadcast_with_delay env σ message rounds delay E).roundLog.map
        Prod.fst).sum) ∧
    (broadcast_with_delay env σ message rounds delay E).totalFailed =
      (((broadcast_with_delay env σ message rounds delay E).roundLog.map
        Prod.snd).sum) ∧
    (broadcast_with_delay env σ message rounds delay E).loggedSummary =
      ⟨(broadcast_with_delay env σ message rounds delay E).totalSuccess,
       (broadcast_with_delay env σ message rounds delay E).totalFailed,
       rounds⟩ ∧
    (broadcast_with_delay env σ message rounds delay E).returnValue = none := by
  refine ⟨?_, ?_, rfl, rfl⟩
  · exact broadcastLoop_success_sum env σ message delay E rounds 1 0
  · exact broadcastLoop_failed_sum env σ message delay E rounds 1 0

/-- C2: with `rounds = R ≥ 1`, `broadcast_with_delay` runs the
resolve/filter/dispatch pipeline exactly `R` times and performs exactly
`R - 1` inter-round sleeps, each of the configured delay — none after the
final round. -/
theorem C2_rounds_and_pauses (env : Nat → List Dialog × Option String)
    (σ : Nat → SendResp) (message : String) (R delay : Nat) (E : List Int)
    (h : 1 ≤ R) :
    (broadcast_with_delay env σ message R delay E).pipelineRuns = R ∧
    (broadcast_with_delay env σ message R delay E).interSleeps =
      List.replicate (R - 1) delay := by
  exact ⟨broadcastLoop_pipelineRuns env σ message delay E R 1 0,
         broadcastLoop_interSleeps env σ message delay E R 1 0⟩

/-- Witness for C2 at `R = 3`, `delay = 10`. -/
theorem C2_witness :
    1 ≤ 3 ∧
    ((broadcast_with_delay envG1 oracleOk "hello" 3 10 []).pipelineRuns = 3 ∧
     (broadcast_with_delay envG1 oracleOk "hello" 3 10 []).interSleeps =
       List.replicate (3 - 1) 10) :=
  ⟨by decide, C2_rounds_and_pauses envG1 oracleOk "hello" 3 10 [] (by decide)⟩

/-- C5: if the provider raises during dialog enumeration, `get_all_groups`
returns the empty list instead of propagating the exception. -/
theorem C5_enumeration_fail_soft (dialogs : List Dialog) (e : String) :
    get_all_groups dialogs (some e) = [] := rfl

/-- C9: a `Channel` entity with `megagroup = false` and `broadcast = false`
is kept by `get_all_groups` and classified with type `channel`. -/
theorem C9_plain_channel_included (i : Int) (t : String) :
    classifyDialog ⟨.channel ⟨i, false, false⟩, t⟩ =
      some ⟨.channel ⟨i, false, false⟩, t, i, "channel"⟩ ∧
    get_all_groups [⟨.channel ⟨i, false, false⟩, t⟩] none =
      [⟨.channel ⟨i, false, false⟩, t, i, "channel"⟩] :=
  ⟨rfl, rfl⟩

/-- C10: calling `broadcast_with_delay` with `rounds = 0` performs no
catalog resolution (`pipelineRuns = 0`), no sends (the send oracle index
stays 0), no sleeps of either kind, raises no error, and finishes with both
totals equal to 0. -/
theorem C10_zero_rounds (env : Nat → List Dialog × Option String)
    (σ : Nat → SendResp) (message : String) (delay : Nat) (E : List Int) :
    broadcast_with_delay env σ message 0 delay E =
      ⟨0, 0, [], 0, [], [], 0, ⟨0, 0, 0⟩, none⟩ := rfl

/-- C3: when the send to a non-excluded group hits a flood wait of `w`
seconds, the whole dispatch loop sleeps `w + 1`, retries that same group
exactly once (exactly two oracle calls are consumed before the loop resumes
at `k + 2`), records `sent` if the retry succeeds and `failedRateLimited`
if the retry fails for any reason, and then continues with the remaining
groups — no further retries. -/
theorem C3_flood_wait_retry (σ : Nat → SendResp) (E : List Int)
    (g : GroupInfo) (gs : List GroupInfo) (k w : Nat)
    (hg : g.id ∉ E) (hσ : σ k = SendResp.floodWait w) :
    (dispatchLoop σ E (g :: gs) k).sleeps =
      (w + 1) :: (dispatchLoop σ E gs (k + 2)).sleeps ∧
    (dispatchLoop σ E (g :: gs) k).outcomes =
      (g, if σ (k + 1) = SendResp.ok then Outcome.sent
          else Outcome.failedRateLimited)
        :: (dispatchLoop σ E gs (k + 2)).outcomes ∧
    (dispatchLoop σ E (g :: gs) k).success =
      (if σ (k + 1) = SendResp.ok then 1 else 0) +
        (dispatchLoop σ E gs (k + 2)).success ∧
    (dispatchLoop σ E (g :: gs) k).failed =
      (if σ (k + 1) = SendResp.ok then 0 else 1) +
        (dispatchLoop σ E gs (k + 2)).failed := by
  cases hσ2 : σ (k + 1) <;>
    simp [dispatchLoop, processGroup, hg, hσ, hσ2, Outcome.isFailure]

/-- Witness for C3: first send flood-waits 5 seconds, the retry succeeds. -/
theorem C3_witness :
    gA.id ∉ ([] : List Int) ∧ oracleFlood 0 = SendResp.floodWait 5 ∧
    ((dispatchLoop oracleFlood [] [gA] 0).sleeps =
      (5 + 1) :: (dispatchLoop oracleFlood [] [] (0 + 2)).sleeps ∧
    (dispatchLoop oracleFlood [] [gA] 0).outcomes =
      (gA, if oracleFlood (0 + 1) = SendResp.ok then Outcome.sent
           else Outcome.failedRateLimited)
        :: (dispatchLoop oracleFlood [] [] (0 + 2)).outcomes ∧
    (dispatchLoop oracleFlood [] [gA] 0).success =
      (if oracleFlood (0 + 1) = SendResp.ok then 1 else 0) +
        (dispatchLoop oracleFlood [] [] (0 + 2)).success ∧
    (dispatchLoop oracleFlood [] [gA] 0).failed =
      (if oracleFlood (0 + 1) = SendResp.ok then 0 else 1) +
        (dispatchLoop oracleFlood [] [] (0 + 2)).failed) :=
  ⟨by decide, rfl, C3_flood_wait_retry oracleFlood [] gA [] 0 5 (by decide) rfl⟩

/-- C4: the classification policy of `get_all_groups`: a megagroup channel
is always classified `supergroup` whatever its broadcast flag; a
broadcast-only non-megagroup channel is excluded from the catalog; a plain
chat is classified `group`; and on the concrete catalog
[G1(group), G2(supergroup), C1(broadcast channel)] the resolved destinations
are exactly [G1, G2]. -/
theorem C4_classification_policy :
    (∀ (i : Int) (b : Bool) (t : String),
      classifyDialog ⟨.channel ⟨i, true, b⟩, t⟩ =
        some ⟨.channel ⟨i, true, b⟩, t, i, "supergroup"⟩) ∧
    (∀ (i : Int) (t : String),
      classifyDialog ⟨.channel ⟨i, false, true⟩, t⟩ = none) ∧
    (∀ (i : Int) (t : String),
      classifyDialog ⟨.chat ⟨i⟩, t⟩ = some ⟨.chat ⟨i⟩, t, i, "group"⟩) ∧
    get_all_groups [dG1, dG2, dC1] none =
      [⟨.chat ⟨1⟩, "G1", 1, "group"⟩,
       ⟨.channel ⟨2, true, false⟩, "G2", 2, "supergroup"⟩] := by
  refine ⟨?_, ?_, ?_, rfl⟩
  · intro i b t
    simp [classifyDialog]
  · intro i t
    simp [classifyDialog]
  · intro i t
    rfl

/-- C6: for every dispatch pass, the success counter counts exactly the
`sent` outcomes, the failure counter counts exactly the failure outcomes,
and sent plus failed plus excluded outcomes equal the length of the round's
catalog snapshot — an excluded destination contributes to neither counter. -/
theorem C6_accounting_invariant (σ : Nat → SendResp) (k : Nat)
    (dialogs : List Dialog) (enumError : Option String) (message : String)
    (E : List Int) :
    (send_to_all_groups_once σ k dialogs enumError message E).success =
      ((send_to_all_groups_once σ k dialogs enumError message E).outcomes.countP
        (fun p => p.2 == Outcome.sent)) ∧
    (send_to_all_groups_once σ k dialogs enumError message E).failed =
      ((send_to_all_groups_once σ k dialogs enumError message E).outcomes.countP
        (fun p => p.2.isFailure)) ∧
    (send_to_all_groups_once σ k dialogs enumError message E).success +
      (send_to_all_groups_once σ k dialogs enumError message E).failed +
      ((send_to_all_groups_once σ k dialogs enumError message E).outcomes.countP
        (fun p => p.2 == Outcome.skippedExcluded)) =
      (get_all_groups dialogs enumError).length :=
  ⟨dispatchLoop_success_count σ E (get_all_groups dialogs enumError) k,
   dispatchLoop_failed_count σ E (get_all_groups dialogs enumError) k,
   dispatchLoop_partition_sum σ E (get_all_groups dialogs enumError) k⟩

/-- C7: the exclusion filter partitions the catalog snapshot by identifier
membership in the exclusion set: the attempted and skipped groups are the
two membership-filtered sublists of the catalog (hence independent of the
send oracle and call index — no side effects), together they cover the
catalog as sets, they are disjoint, and each preserves catalog order. -/
theorem C7_exclusion_partition (σ : Nat → SendResp) (E : List Int)
    (C : List GroupInfo) (k : Nat) :
    acceptedOf (dispatchLoop σ E C k) =
      C.filter (fun g => !decide (g.id ∈ E)) ∧
    skippedOf (dispatchLoop σ E C k) =
      C.filter (fun g => decide (g.id ∈ E)) ∧
    (∀ g, g ∈ C ↔
      g ∈ acceptedOf (dispatchLoop σ E C k) ∨
        g ∈ skippedOf (dispatchLoop σ E C k)) ∧
    (∀ g, g ∈ acceptedOf (dispatchLoop σ E C k) →
      g ∉ skippedOf (dispatchLoop σ E C k)) ∧
    (acceptedOf (dispatchLoop σ E C k)).Sublist C ∧
    (skippedOf (dispatchLoop σ E C k)).Sublist C := by
  have ha := acceptedOf_dispatchLoop σ E C k
  have hs := skippedOf_dispatchLoop σ E C k
  refine ⟨ha, hs, ?_, ?_, ?_, ?_⟩
  · intro g
    rw [ha, hs]
    by_cases hm : g.id ∈ E <;> simp [List.mem_filter, hm]
  · intro g hga hgs
    rw [ha] at hga
    rw [hs] at hgs
    rcases List.mem_filter.mp hga with ⟨_, h1⟩
    rcases List.mem_filter.mp hgs with ⟨_, h2⟩
    simp at h1 h2
    exact h1 h2
  · rw [ha]
    exact List.filter_sublist C
  · rw [hs]
    exact List.filter_sublist C

/-- C8: destination-local errors never abort the pass: a permission-denied,
banned, or unclassified error on a non-excluded group is recorded as the
corresponding failure with no retry and no sleep (the loop resumes at
`k + 1` with the very next group), and every group of the catalog receives
an outcome in catalog order. -/
theorem C8_error_containment (σ : Nat → SendResp) (E : List Int)
    (g : GroupInfo) (gs : List GroupInfo) (k : Nat) (m : String)
    (hg : g.id ∉ E) :
    (σ k = SendResp.writeForbidden →
      dispatchLoop σ E (g :: gs) k =
        ⟨(g, Outcome.failedPermission) ::
           (dispatchLoop σ E gs (k + 1)).outcomes,
         (dispatchLoop σ E gs (k + 1)).success,
         1 + (dispatchLoop σ E gs (k + 1)).failed,
         (dispatchLoop σ E gs (k + 1)).sleeps,
         (dispatchLoop σ E gs (k + 1)).kAfter⟩) ∧
    (σ k = SendResp.banned →
      dispatchLoop σ E (g :: gs) k =
        ⟨(g, Outcome.failedBanned) ::
           (dispatchLoop σ E gs (k + 1)).outcomes,
         (dispatchLoop σ E gs (k + 1)).success,
         1 + (dispatchLoop σ E gs (k + 1)).failed,
         (dispatchLoop σ E gs (k + 1)).sleeps,
         (dispatchLoop σ E gs (k + 1)).kAfter⟩) ∧
    (σ k = SendResp.otherError m →
      dispatchLoop σ E (g :: gs) k =
        ⟨(g, Outcome.failedOther) ::
           (dispatchLoop σ E gs (k + 1)).outcomes,
         (dispatchLoop σ E gs (k + 1)).success,
         1 + (dispatchLoop σ E gs (k + 1)).failed,
         (dispatchLoop σ E gs (k + 1)).sleeps,
         (dispatchLoop σ E gs (k + 1)).kAfter⟩) ∧
    (dispatchLoop σ E (g :: gs) k).outcomes.map Prod.fst = g :: gs := by
  refine ⟨?_, ?_, ?_, dispatchLoop_map_fst σ E (g :: gs) k⟩ <;>
    intro hσ <;>
    simp [dispatchLoop, processGroup, hg, hσ, Outcome.isFailure]

/-- Witness for C8: first send hits a write-permission error. -/
theorem C8_witness :
    gA.id ∉ ([] : List Int) ∧
    ((oracleForbidden 0 = SendResp.writeForbidden →
      dispatchLoop oracleForbidden [] [gA] 0 =
        ⟨(gA, Outcome.failedPermission) ::
           (dispatchLoop oracleForbidden [] [] (0 + 1)).outcomes,
         (dispatchLoop oracleForbidden [] [] (0 + 1)).success,
         1 + (dispatchLoop oracleForbidden [] [] (0 + 1)).failed,
         (dispatchLoop oracleForbidden [] [] (0 + 1)).sleeps,
         (dispatchLoop oracleForbidden [] [] (0 + 1)).kAfter⟩) ∧
    (oracleForbidden 0 = SendResp.banned →
      dispatchLoop oracleForbidden [] [gA] 0 =
        ⟨(gA, Outcome.failedBanned) ::
           (dispatchLoop oracleForbidden [] [] (0 + 1)).outcomes,
         (dispatchLoop oracleForbidden [] [] (0 + 1)).success,
         1 + (dispatchLoop oracleForbidden [] [] (0 + 1)).failed,
         (dispatchLoop oracleForbidden [] [] (0 + 1)).sleeps,
         (dispatchLoop oracleForbidden [] [] (0 + 1)).kAfter⟩) ∧
    (oracleForbidden 0 = SendResp.otherError "boom" →
      dispatchLoop oracleForbidden [] [gA] 0 =
        ⟨(gA, Outcome.failedOther) ::
           (dispatchLoop oracleForbidden [] [] (0 + 1)).outcomes,
         (dispatchLoop oracleForbidden [] [] (0 + 1)).success,
         1 + (dispatchLoop oracleForbidden [] [] (0 + 1)).failed,
         (dispatchLoop oracleForbidden [] [] (0 + 1)).sleeps,
         (dispatchLoop oracleForbidden [] [] (0 + 1)).kAfter⟩) ∧
    (dispatchLoop oracleForbidden [] [gA] 0).outcomes.map Prod.fst = [gA]) :=
  ⟨by decide,
   C8_error_containment oracleForbidden [] gA [] 0 "boom" (by decide)⟩
